import Mathlib

/-!
Formal model of the payout-normalization and export pipeline of the
poker_payouts single-page tool.

The embedded code is the client-side core:
* `normalize` models the `extractedPayouts.sort((a, b) => a.position - b.position)`
  step of `handleGenerateJson` (App.tsx line 118); ECMAScript array sort is a
  stable sort, and with the consistent comparator `a.position - b.position` its
  result is the stable sort by the `position` key, modelled here with
  `List.insertionSort`.
* `toFixed2` models `p.prize.toFixed(2)` (App.tsx line 123).  JavaScript
  numbers are modelled as exact rationals; ECMAScript `toFixed(2)` picks the
  integer n closest to x * 100, ties going to the larger n, i.e.
  n = floor(x * 100 + 1/2) for nonnegative x.
* `buildExportDocument` and `serializeExport` model the construction of
  `hrcJsonData` and `JSON.stringify(hrcJsonData, null, 2)`
  (App.tsx lines 121-136).  None of the serialized field values can contain a
  character that JSON escaping would rewrite, so serialization is plain
  concatenation with two-space indentation.
* `generatePayoutsFromJson` models the service function of the same name: its
  try/catch rethrows every failure as one fixed Error message
  (services/geminiService.ts).
* `AppState`, `addFiles`, `handleGenerateJson`, `handleReset`, `step` model the
  React component state and its event handlers; the asynchronous gateway call
  is passed in as an explicit `Except` outcome.
-/

namespace PokerPayouts

/-- One extracted payout record: finishing position and prize money
(`types.ts` / the response schema: integer position, numeric prize). -/
structure PayoutEntry where
  position : Int
  prize : ℚ
  deriving DecidableEq

/-- The sort order used by the comparator `(a, b) => a.position - b.position`. -/
def posLe (a b : PayoutEntry) : Prop := a.position ≤ b.position

instance : DecidableRel posLe :=
  fun a b => inferInstanceAs (Decidable (a.position ≤ b.position))

instance : IsTotal PayoutEntry posLe := ⟨fun a b => Int.le_total a.position b.position⟩

instance : IsTrans PayoutEntry posLe := ⟨fun _ _ _ h₁ h₂ => le_trans h₁ h₂⟩

/-- The sort step of `handleGenerateJson`: stable sort by `position`. -/
def normalize (l : List PayoutEntry) : List PayoutEntry := l.insertionSort posLe

/-- The decimal digit character for `d < 10`. -/
def digitChar (d : Nat) : Char := Char.ofNat (48 + d)

/-- Decimal digits of `n`, least significant first, with explicit fuel
(`fuel = n` is always enough, since `n` has at most `n` digits for `n ≥ 1`). -/
def natDigitsRev (fuel n : Nat) : List Char :=
  match fuel, n with
  | 0, _ => []
  | _ + 1, 0 => []
  | fuel + 1, n => digitChar (n % 10) :: natDigitsRev fuel (n / 10)

/-- Decimal rendering of a natural number, as JavaScript `String(n)`. -/
def natStr (n : Nat) : String :=
  if n = 0 then "0" else String.mk (natDigitsRev n n).reverse

/-- Decimal rendering of an integer, as JavaScript `String(i)`. -/
def intStr (i : Int) : String :=
  if i < 0 then "-" ++ natStr i.natAbs else natStr i.toNat

/-- Render `k < 100` with exactly two digits (the fractional part of
`toFixed(2)`). -/
def pad2 (k : Nat) : String := if k < 10 then "0" ++ natStr k else natStr k

/-- ECMAScript `x.toFixed(2)` for nonnegative `x`: round `x * 100` to the
nearest integer, ties toward the larger integer, then insert the point. -/
def toFixed2Abs (q : ℚ) : String :=
  let n : Nat := (⌊q * 100 + 1 / 2⌋).toNat
  natStr (n / 100) ++ "." ++ pad2 (n % 100)

/-- ECMAScript `x.toFixed(2)` on the exact value of the number `x`. -/
def toFixed2 (q : ℚ) : String :=
  if q < 0 then "-" ++ toFixed2Abs (-q) else toFixed2Abs q

/-- The structured value `hrcJsonData` built by `handleGenerateJson`. -/
structure ExportDocument where
  name : String
  stake : String
  rake : String
  currency : String
  tournamentEntry : List (String × String)
  deriving DecidableEq

/-- Lines 121-134 of App.tsx: the export document built from the (already
normalized) entries; every root field is a constant. -/
def buildExportDocument (entries : List PayoutEntry) : ExportDocument :=
  { name := "Custom Tournament Payouts"
    stake := "0"
    rake := "0"
    currency := "USD"
    tournamentEntry := entries.map fun p => (intStr p.position, toFixed2 p.prize) }

/-- JSON string quoting.  Every value serialized by this tool consists of
digits, letters, spaces, a dot or a minus sign, so no escape sequence is ever
produced by `JSON.stringify`. -/
def jsonQuote (s : String) : String := "\"" ++ s ++ "\""

/-- One element of the `TournamentEntry` array, as laid out by
`JSON.stringify(_, null, 2)` at nesting depth 3. -/
def entryBlock (e : String × String) : String :=
  "      \x7b\n        \"@position\": " ++ jsonQuote e.1 ++
  ",\n        \"@prize\": " ++ jsonQuote e.2 ++ "\n      \x7d"

/-- The `TournamentEntry` array, as laid out by `JSON.stringify(_, null, 2)`. -/
def entriesArray (es : List (String × String)) : String :=
  match es with
  | [] => "[]"
  | _ => "[\n" ++ String.intercalate ",\n" (es.map entryBlock) ++ "\n    ]"

/-- `JSON.stringify(hrcJsonData, null, 2)`: pretty-printed with two-space
indentation and the insertion-order key sequence of the object literal. -/
def serializeExport (d : ExportDocument) : String :=
  "\x7b\n  \"CompletedTournament\": \x7b\n    \"@name\": " ++ jsonQuote d.name ++
  ",\n    \"@stake\": " ++ jsonQuote d.stake ++
  ",\n    \"@rake\": " ++ jsonQuote d.rake ++
  ",\n    \"@currency\": " ++ jsonQuote d.currency ++
  ",\n    \"TournamentEntry\": " ++ entriesArray d.tournamentEntry ++
  "\n  \x7d\n\x7d"

/-- The fixed message thrown by the catch block of `generatePayoutsFromJson`
in services/geminiService.ts. -/
def geminiFailureMessage : String :=
  "Failed to process the image with Gemini API. Please check the console for details."

/-- `generatePayoutsFromJson`: the Gemini call plus JSON parse is passed in as
an `Except` outcome; the try/catch forwards a successful parse unchanged and
rethrows every failure as `Error(geminiFailureMessage)` (the original error
only goes to `console.error`). -/
def generatePayoutsFromJson (response : Except String (List PayoutEntry)) :
    Except String (List PayoutEntry) :=
  match response with
  | Except.ok l => Except.ok l
  | Except.error _ => Except.error geminiFailureMessage

/-- The React component state of `App` (files and object URLs are opaque
tokens). -/
structure AppState where
  imageFiles : List Nat
  imageUrls : List Nat
  payouts : Option (List PayoutEntry)
  hrcJson : Option String
  isLoading : Bool
  error : Option String
  deriving DecidableEq

/-- The state at mount: empty batch, nothing displayed. -/
def initialState : AppState := ⟨[], [], none, none, false, none⟩

/-- `addFiles` (App.tsx lines 62-72): append the new files and their object
URLs, and clear payouts, export JSON and error. -/
def addFiles (s : AppState) (newFiles : List Nat) : AppState :=
  { s with
    imageFiles := s.imageFiles ++ newFiles
    imageUrls := s.imageUrls ++ newFiles
    payouts := none
    hrcJson := none
    error := none }

/-- The message set when generate is pressed with an empty batch. -/
def emptyBatchError : String := "Please upload at least one image first."

/-- The fallback when a thrown value has no message (`err.message || ...`). -/
def unknownErrorMessage : String := "An unknown error occurred."

/-- `handleGenerateJson` (App.tsx lines 104-142) run to completion with no
event interleaved at the `await`: the outcome of one uninterrupted generate
action (this equals `generateResolve` after `generateStart`, proven in
`handleGenerateJson_eq_uninterrupted` below; the suspension point itself is
modelled by the session machine further down).  `rawResponse` is the outcome
of the Gemini call plus JSON parse inside the service; the service wrapper
`generatePayoutsFromJson` is applied to it as in the source.  On success the
sorted list is displayed and the serialized export stored; on failure the
previously cleared payouts and export stay cleared and the single error
message is shown. -/
def handleGenerateJson (s : AppState)
    (rawResponse : Except String (List PayoutEntry)) : AppState :=
  if s.imageFiles = [] then
    { s with error := some emptyBatchError }
  else
    match generatePayoutsFromJson rawResponse with
    | Except.ok extractedPayouts =>
        let sorted := normalize extractedPayouts
        { s with
          isLoading := false
          error := none
          payouts := some sorted
          hrcJson := some (serializeExport (buildExportDocument sorted)) }
    | Except.error msg =>
        { s with
          isLoading := false
          payouts := none
          hrcJson := none
          error := some (if msg = "" then unknownErrorMessage else msg) }

/-- `handleReset` (App.tsx lines 157-165): back to the mount state. -/
def handleReset (_s : AppState) : AppState := initialState

/-- The session state of the running page: the React component state plus the
number of gateway calls issued but not yet settled.  `handleGenerateJson`
suspends at the `await` (App.tsx line 116); the outstanding call keeps running
across later events — neither `addFiles` nor `handleReset` cancels it, and
while it is pending only the Generate button is disabled (App.tsx line 229):
the window-level paste listener (line 98), the drop zone (line 185) and the
Reset button stay active. -/
structure SessionState where
  app : AppState
  pendingCalls : Nat

/-- The synchronous prefix of `handleGenerateJson` (App.tsx lines 104-114), up
to the `await`: a click is impossible while the button is disabled (modelled
as a no-op when loading); the empty-batch guard only sets the error and issues
no call; otherwise set loading, clear error, payouts and export, and issue the
gateway call. -/
def generateStart (σ : SessionState) : SessionState :=
  if σ.app.isLoading then σ
  else if σ.app.imageFiles = [] then
    ⟨{ σ.app with error := some emptyBatchError }, σ.pendingCalls⟩
  else
    ⟨{ σ.app with isLoading := true, error := none, payouts := none, hrcJson := none },
      σ.pendingCalls + 1⟩

/-- The continuation of `handleGenerateJson` after the `await` (App.tsx lines
116-141), run when one outstanding gateway call settles with `rawResponse`:
on success, sort and display the extracted payouts and store the serialized
export (the `try` block touches only payouts and the export); on failure the
catch sets only the single error message; `finally` ends the loading state.
With no call outstanding there is nothing to settle. -/
def generateResolve (σ : SessionState)
    (rawResponse : Except String (List PayoutEntry)) : SessionState :=
  if σ.pendingCalls = 0 then σ
  else
    match generatePayoutsFromJson rawResponse with
    | Except.ok extractedPayouts =>
        let sorted := normalize extractedPayouts
        ⟨{ σ.app with
            isLoading := false
            payouts := some sorted
            hrcJson := some (serializeExport (buildExportDocument sorted)) },
          σ.pendingCalls - 1⟩
    | Except.error msg =>
        ⟨{ σ.app with
            isLoading := false
            error := some (if msg = "" then unknownErrorMessage else msg) },
          σ.pendingCalls - 1⟩

/-- The user-visible events of the running page.  `generateClick` is the
button press (the synchronous prefix of the generate action); `gatewayReturn`
is the later settling of one outstanding gateway call with the given outcome;
`download` reads state without changing it. -/
inductive UIEvent where
  | addImages (fs : List Nat)
  | generateClick
  | gatewayReturn (rawResponse : Except String (List PayoutEntry))
  | reset
  | download

/-- Whether an event is part of a generate action: the click, or the settling
of an outstanding gateway call. -/
def isGenerateEvent : UIEvent → Bool
  | UIEvent.generateClick => true
  | UIEvent.gatewayReturn _ => true
  | _ => false

/-- One step of the session state machine.  `reset` discards the in-memory
state but does not cancel the outstanding request (spec section 5), so the
pending count is kept. -/
def step (σ : SessionState) : UIEvent → SessionState
  | UIEvent.addImages fs => ⟨addFiles σ.app fs, σ.pendingCalls⟩
  | UIEvent.generateClick => generateStart σ
  | UIEvent.gatewayReturn r => generateResolve σ r
  | UIEvent.reset => ⟨handleReset σ.app, σ.pendingCalls⟩
  | UIEvent.download => σ

/-- Run a sequence of events. -/
def runEvents (σ : SessionState) (es : List UIEvent) : SessionState := es.foldl step σ

/-- Shape check for a rendered prize: the string is some nonempty run of
decimal digits, then one dot, then exactly two decimal digits — so exactly two
digits follow the decimal point and no separator or currency symbol occurs. -/
def twoDecimalForm (s : String) : Bool :=
  match s.data.reverse with
  | d1 :: d2 :: c :: rest =>
      d1.isDigit && d2.isDigit && (c == '.') && !rest.isEmpty && rest.all Char.isDigit
  | _ => false

/-! Helper lemmas about the digit-string functions. -/

theorem digitChar_isDigit : ∀ d, d < 10 → (digitChar d).isDigit = true := by decide

theorem natDigitsRev_isDigit :
    ∀ fuel n, ∀ c ∈ natDigitsRev fuel n, c.isDigit = true := by
  intro fuel
  induction fuel with
  | zero => intro n c hc; exact absurd hc (List.not_mem_nil c)
  | succ f ih =>
    intro n c hc
    cases n with
    | zero => exact absurd hc (List.not_mem_nil c)
    | succ m =>
      have hc : c ∈ digitChar ((m + 1) % 10) :: natDigitsRev f ((m + 1) / 10) := hc
      rcases List.mem_cons.mp hc with h | h
      · rw [h]; exact digitChar_isDigit _ (Nat.mod_lt _ (by decide))
      · exact ih _ c h

theorem natDigitsRev_ne_nil (fuel n : Nat) (hf : fuel ≠ 0) (hn : n ≠ 0) :
    natDigitsRev fuel n ≠ [] := by
  cases fuel with
  | zero => exact absurd rfl hf
  | succ f =>
    cases n with
    | zero => exact absurd rfl hn
    | succ m => exact List.cons_ne_nil _ _

theorem natStr_isDigit (n : Nat) : ∀ c ∈ (natStr n).data, c.isDigit = true := by
  unfold natStr
  rcases eq_or_ne n 0 with h | h
  · rw [if_pos h]; decide
  · rw [if_neg h]
    intro c hc
    have hc : c ∈ (natDigitsRev n n).reverse := hc
    exact natDigitsRev_isDigit n n c (List.mem_reverse.mp hc)

theorem natStr_data_ne_nil (n : Nat) : (natStr n).data ≠ [] := by
  unfold natStr
  rcases eq_or_ne n 0 with h | h
  · rw [if_pos h]; decide
  · rw [if_neg h]
    show (natDigitsRev n n).reverse ≠ []
    intro hrev
    exact natDigitsRev_ne_nil n n h h (by rwa [List.reverse_eq_nil_iff] at hrev)

theorem pad2_two_digits :
    ∀ b, b < 100 → (pad2 b).data.length = 2 ∧ (pad2 b).data.all Char.isDigit = true := by
  decide

theorem string_data_append (s t : String) : (s ++ t).data = s.data ++ t.data := by
  cases s; cases t; rfl

theorem twoDecimalForm_cat (a b : Nat) (hb : b < 100) :
    twoDecimalForm (natStr a ++ "." ++ pad2 b) = true := by
  obtain ⟨hlen, hdig⟩ := pad2_two_digits b hb
  obtain ⟨b1, b2, hB⟩ := List.length_eq_two.mp hlen
  have hd1 : b1.isDigit = true ∧ b2.isDigit = true := by
    rw [hB] at hdig
    simp only [List.all_cons, List.all_nil, Bool.and_eq_true, Bool.and_true] at hdig
    exact hdig
  have hdata : (natStr a ++ "." ++ pad2 b).data = (natStr a).data ++ '.' :: [b1, b2] := by
    rw [string_data_append, string_data_append, hB]
    show ((natStr a).data ++ ['.']) ++ [b1, b2] = (natStr a).data ++ '.' :: [b1, b2]
    rw [List.append_assoc]
    rfl
  obtain ⟨x, xs, hA⟩ : ∃ x xs, (natStr a).data.reverse = x :: xs := by
    cases hA : (natStr a).data.reverse with
    | nil => exact absurd (List.reverse_eq_nil_iff.mp hA) (natStr_data_ne_nil a)
    | cons x xs => exact ⟨x, xs, rfl⟩
  unfold twoDecimalForm
  rw [hdata, List.reverse_append]
  show (b2.isDigit && b1.isDigit && ('.' == '.') && !(natStr a).data.reverse.isEmpty &&
      (natStr a).data.reverse.all Char.isDigit) = true
  rw [hA]
  simp only [Bool.and_eq_true, List.isEmpty_cons, Bool.not_false, List.all_eq_true,
    beq_self_eq_true, hd1.1, hd1.2, true_and, and_true]
  intro c hc
  exact natStr_isDigit a c (List.mem_reverse.mp (hA ▸ hc))

theorem toFixed2Abs_twoDecimalForm (q : ℚ) : twoDecimalForm (toFixed2Abs q) = true := by
  unfold toFixed2Abs
  exact twoDecimalForm_cat _ _ (Nat.mod_lt _ (by decide))

theorem toFixed2_eq_of_floor (q : ℚ) (n : Nat) (h0 : ¬ q < 0)
    (h : ⌊q * 100 + 1 / 2⌋ = (n : Int)) :
    toFixed2 q = natStr (n / 100) ++ "." ++ pad2 (n % 100) := by
  unfold toFixed2 toFixed2Abs
  rw [if_neg h0, h, Int.toNat_natCast]

/-- Claim C1: for every finite list of `PayoutEntry` with unique positions,
`normalize` (the sort step of the generate action) returns a list of the same
length, the same multiset of entries (a permutation: nothing added, dropped or
mutated), sorted strictly ascending by the `position` field. -/
theorem normalize_sorts_unique (l : List PayoutEntry)
    (h : (l.map PayoutEntry.position).Nodup) :
    (normalize l).length = l.length ∧ (normalize l).Perm l ∧
    (normalize l).Pairwise fun a b => a.position < b.position := by
  have hperm : (normalize l).Perm l := List.perm_insertionSort posLe l
  refine ⟨hperm.length_eq, hperm, ?_⟩
  have hs : (normalize l).Pairwise posLe := List.sorted_insertionSort posLe l
  have hmap : ((normalize l).map PayoutEntry.position).Nodup :=
    ((hperm.map PayoutEntry.position).nodup_iff).mpr h
  have hmap' : ((normalize l).map PayoutEntry.position).Pairwise (· ≠ ·) := hmap
  have hne : (normalize l).Pairwise fun a b => a.position ≠ b.position :=
    List.pairwise_map.mp hmap'
  exact (hs.and hne).imp fun hab => lt_of_le_of_ne hab.1 hab.2

/-- Witness for C1 at the concrete input `[{2, 50}, {1, 7}]`. -/
theorem normalize_sorts_unique_witness :
    (normalize [⟨2, 50⟩, ⟨1, 7⟩]).length = ([⟨2, 50⟩, ⟨1, 7⟩] : List PayoutEntry).length ∧
    (normalize [⟨2, 50⟩, ⟨1, 7⟩]).Perm [⟨2, 50⟩, ⟨1, 7⟩] ∧
    (normalize [⟨2, 50⟩, ⟨1, 7⟩]).Pairwise (fun a b => a.position < b.position) :=
  normalize_sorts_unique [⟨2, 50⟩, ⟨1, 7⟩] (by decide)

/-- Claim C2: the exporter renders every nonnegative prize with exactly two
digits after the decimal point (digits, one dot, two fractional digits — hence
no thousands separator and no currency symbol), under the fixed rounding rule
of ECMAScript `toFixed(2)` (round half up on the exact value); in particular
prize 939.9 renders as "939.90" and 1234.567 as "1234.57". -/
theorem prize_rendering_two_decimals :
    toFixed2 (939.9 : ℚ) = "939.90" ∧ toFixed2 (1234.567 : ℚ) = "1234.57" ∧
    ∀ p : PayoutEntry, 0 ≤ p.prize → twoDecimalForm (toFixed2 p.prize) = true := by
  refine ⟨?_, ?_, ?_⟩
  · have h : ⌊(939.9 : ℚ) * 100 + 1 / 2⌋ = ((93990 : Nat) : Int) := by
      rw [show (939.9 : ℚ) * 100 + 1 / 2 = ((187981 : Int) : ℚ) / ((2 : Nat) : ℚ) by norm_num,
        Rat.floor_intCast_div_natCast]
      decide
    rw [toFixed2_eq_of_floor _ 93990 (by norm_num) h]
    decide
  · have h : ⌊(1234.567 : ℚ) * 100 + 1 / 2⌋ = ((123457 : Nat) : Int) := by
      rw [show (1234.567 : ℚ) * 100 + 1 / 2 = ((617286 : Int) : ℚ) / ((5 : Nat) : ℚ) by norm_num,
        Rat.floor_intCast_div_natCast]
      decide
    rw [toFixed2_eq_of_floor _ 123457 (by norm_num) h]
    decide
  · intro p hp
    unfold toFixed2
    rw [if_neg (not_lt.mpr hp)]
    exact toFixed2Abs_twoDecimalForm p.prize

/-- Witness for C2: the entry with position 1 and prize 939.9. -/
theorem prize_rendering_two_decimals_witness :
    twoDecimalForm (toFixed2 (PayoutEntry.mk 1 939.9).prize) = true :=
  prize_rendering_two_decimals.2.2 ⟨1, 939.9⟩ (by norm_num)

set_option maxRecDepth 20000 in
/-- Claim C3: the export-construction step is deterministic and idempotent —
the builder and serializer are pure functions, so any two calls on the same
normalized input give byte-identical serialized text; the second conjunct
exhibits the exact serialized bytes (pretty-printed, insertion key order,
two-space indentation) on the spec scenario input `[{1, 100.5}, {2, 50}]`. -/
theorem buildExport_deterministic (l₁ l₂ : List PayoutEntry) (h : l₁ = l₂) :
    serializeExport (buildExportDocument l₁) = serializeExport (buildExportDocument l₂) ∧
    serializeExport (buildExportDocument [⟨1, 100.5⟩, ⟨2, 50⟩]) =
      "\x7b\n  \"CompletedTournament\": \x7b\n    \"@name\": \"Custom Tournament Payouts\",\n    \"@stake\": \"0\",\n    \"@rake\": \"0\",\n    \"@currency\": \"USD\",\n    \"TournamentEntry\": [\n      \x7b\n        \"@position\": \"1\",\n        \"@prize\": \"100.50\"\n      \x7d,\n      \x7b\n        \"@position\": \"2\",\n        \"@prize\": \"50.00\"\n      \x7d\n    ]\n  \x7d\n\x7d" := by
  constructor
  · rw [h]
  · have e1 : toFixed2 (100.5 : ℚ) = "100.50" := by
      have h1 : ⌊(100.5 : ℚ) * 100 + 1 / 2⌋ = ((10050 : Nat) : Int) := by
        rw [show (100.5 : ℚ) * 100 + 1 / 2 = ((20101 : Int) : ℚ) / ((2 : Nat) : ℚ) by norm_num,
          Rat.floor_intCast_div_natCast]
        decide
      rw [toFixed2_eq_of_floor _ 10050 (by norm_num) h1]
      decide
    have e2 : toFixed2 (50 : ℚ) = "50.00" := by
      have h2 : ⌊(50 : ℚ) * 100 + 1 / 2⌋ = ((5000 : Nat) : Int) := by
        rw [show (50 : ℚ) * 100 + 1 / 2 = ((10001 : Int) : ℚ) / ((2 : Nat) : ℚ) by norm_num,
          Rat.floor_intCast_div_natCast]
        decide
      rw [toFixed2_eq_of_floor _ 5000 (by norm_num) h2]
      decide
    simp only [buildExportDocument, List.map_cons, List.map_nil, e1, e2]
    decide

/-- Witness for C3: repeated serialization of the same concrete input. -/
theorem buildExport_deterministic_witness :
    serializeExport (buildExportDocument [⟨1, 100.5⟩, ⟨2, 50⟩]) =
      serializeExport (buildExportDocument [⟨1, 100.5⟩, ⟨2, 50⟩]) :=
  (buildExport_deterministic [⟨1, 100.5⟩, ⟨2, 50⟩] [⟨1, 100.5⟩, ⟨2, 50⟩] rfl).1

/-- Claim C4: when the gateway call of a generate action fails (with a
nonempty image batch), the prior displayed results are cleared, exactly one
error message is shown, and no export document is produced. -/
theorem gateway_failure_clears_results (s : AppState) (e : String)
    (h : s.imageFiles ≠ []) :
    (handleGenerateJson s (Except.error e)).payouts = none ∧
    (handleGenerateJson s (Except.error e)).hrcJson = none ∧
    (handleGenerateJson s (Except.error e)).error = some geminiFailureMessage := by
  unfold handleGenerateJson generatePayoutsFromJson
  rw [if_neg h]
  refine ⟨rfl, rfl, ?_⟩
  show some (if geminiFailureMessage = "" then unknownErrorMessage else geminiFailureMessage) =
    some geminiFailureMessage
  rw [if_neg (by decide)]

/-- Witness for C4: a state with stale displayed results and a failing call. -/
theorem gateway_failure_clears_results_witness :
    (handleGenerateJson ⟨[0], [0], some [⟨1, 5⟩], some "stale", false, none⟩
      (Except.error "network down")).payouts = none ∧
    (handleGenerateJson ⟨[0], [0], some [⟨1, 5⟩], some "stale", false, none⟩
      (Except.error "network down")).hrcJson = none ∧
    (handleGenerateJson ⟨[0], [0], some [⟨1, 5⟩], some "stale", false, none⟩
      (Except.error "network down")).error = some geminiFailureMessage :=
  gateway_failure_clears_results _ _ (by decide)

/-- Claim C5 counterexample: a gateway output with two entries at position 1
does not end the generate run in an error — the run succeeds, the duplicate
entries are displayed as-is, refuting the claim that duplicate positions are
treated as an extraction failure. -/
theorem dup_positions_not_extraction_failure :
    (handleGenerateJson ⟨[0], [0], none, none, false, none⟩
      (Except.ok [⟨1, 10⟩, ⟨1, 20⟩])).error = none ∧
    (handleGenerateJson ⟨[0], [0], none, none, false, none⟩
      (Except.ok [⟨1, 10⟩, ⟨1, 20⟩])).payouts = some [⟨1, 10⟩, ⟨1, 20⟩] := by
  decide

/-- Claim C5 amended: the normalizer does not merge, drop or repair duplicate
positions (the output is a permutation of the input), but the generate run
does not end in an error: it displays the sorted entries and produces the
export document. -/
theorem dup_positions_pass_through (s : AppState) (l : List PayoutEntry)
    (h : s.imageFiles ≠ []) :
    (handleGenerateJson s (Except.ok l)).error = none ∧
    (handleGenerateJson s (Except.ok l)).payouts = some (normalize l) ∧
    (normalize l).Perm l ∧
    (handleGenerateJson s (Except.ok l)).hrcJson =
      some (serializeExport (buildExportDocument (normalize l))) := by
  unfold handleGenerateJson generatePayoutsFromJson
  rw [if_neg h]
  exact ⟨rfl, rfl, List.perm_insertionSort posLe l, rfl⟩

/-- Witness for C5 (amended) at a duplicate-position gateway output. -/
theorem dup_positions_pass_through_witness :
    (handleGenerateJson ⟨[3], [3], none, none, true, none⟩
      (Except.ok [⟨1, 10⟩, ⟨1, 20⟩])).error = none ∧
    (handleGenerateJson ⟨[3], [3], none, none, true, none⟩
      (Except.ok [⟨1, 10⟩, ⟨1, 20⟩])).payouts = some (normalize [⟨1, 10⟩, ⟨1, 20⟩]) ∧
    (normalize [⟨1, 10⟩, ⟨1, 20⟩]).Perm [⟨1, 10⟩, ⟨1, 20⟩] ∧
    (handleGenerateJson ⟨[3], [3], none, none, true, none⟩
      (Except.ok [⟨1, 10⟩, ⟨1, 20⟩])).hrcJson =
      some (serializeExport (buildExportDocument (normalize [⟨1, 10⟩, ⟨1, 20⟩]))) :=
  dup_positions_pass_through _ _ (by decide)

/-- Claim C6 counterexample: at the concrete failure "network unreachable",
the service propagates the fixed message, not the original description —
refuting the claim that failures are surfaced verbatim. -/
theorem gateway_error_message_replaced :
    generatePayoutsFromJson (Except.error "network unreachable") =
      Except.error geminiFailureMessage ∧
    geminiFailureMessage ≠ "network unreachable" :=
  ⟨rfl, by decide⟩

/-- Claim C6 amended: every failure of the gateway call is propagated as one
fixed descriptive message (the original description is only logged, never
propagated, and no data is substituted for the failure). -/
theorem gateway_error_fixed_message (e : String) :
    generatePayoutsFromJson (Except.error e) = Except.error geminiFailureMessage := rfl

/-- Claim C7: `normalize` is idempotent — sorting an already sorted list with
the stable sort leaves it unchanged. -/
theorem normalize_idempotent (l : List PayoutEntry) :
    normalize (normalize l) = normalize l :=
  List.Sorted.insertionSort_eq (List.sorted_insertionSort posLe l)

/-- Claim C8: the export document root fields are constants independent of the
input: the tournament name label, the zero stake and rake (rendered as the
decimal string "0"), and the fixed currency code USD. -/
theorem export_root_fields_constant (l : List PayoutEntry) :
    (buildExportDocument l).name = "Custom Tournament Payouts" ∧
    (buildExportDocument l).stake = "0" ∧
    (buildExportDocument l).rake = "0" ∧
    (buildExportDocument l).currency = "USD" :=
  ⟨rfl, rfl, rfl, rfl⟩

set_option maxRecDepth 20000 in
/-- Claim C9: the empty input list normalizes to the empty list and exports to
a well-formed document with an empty entry sequence; both steps are total
functions, so no error can arise. -/
theorem empty_input_empty_document :
    normalize [] = ([] : List PayoutEntry) ∧
    (buildExportDocument []).tournamentEntry = [] ∧
    serializeExport (buildExportDocument []) =
      "\x7b\n  \"CompletedTournament\": \x7b\n    \"@name\": \"Custom Tournament Payouts\",\n    \"@stake\": \"0\",\n    \"@rake\": \"0\",\n    \"@currency\": \"USD\",\n    \"TournamentEntry\": []\n  \x7d\n\x7d" :=
  ⟨rfl, rfl, by decide⟩

/-- The atomic `handleGenerateJson` of the earlier sections is exactly one
uninterrupted generate action of the session machine: a click on an enabled
button with a nonempty batch, immediately followed by the settling of the call
it issued. -/
theorem handleGenerateJson_eq_uninterrupted (s : AppState) (p : Nat)
    (r : Except String (List PayoutEntry)) (hl : s.isLoading = false)
    (hne : s.imageFiles ≠ []) :
    (generateResolve (generateStart ⟨s, p⟩) r).app = handleGenerateJson s r := by
  unfold generateStart generateResolve handleGenerateJson
  simp only [hl, Bool.false_eq_true, if_false, if_neg hne, Nat.succ_ne_zero]
  cases r with
  | ok l => rfl
  | error msg => rfl

/-- If a run contains neither a generate click nor the settling of a gateway
call, and starts with nothing displayed, nothing becomes displayed:
`addImages` and `reset` clear the three display fields and `download` leaves
the state unchanged. -/
theorem runEvents_no_generate_keeps_cleared (es : List UIEvent) :
    ∀ σ : SessionState, (es.all fun e => !(isGenerateEvent e)) = true →
      σ.app.payouts = none → σ.app.hrcJson = none → σ.app.error = none →
      (runEvents σ es).app.payouts = none ∧ (runEvents σ es).app.hrcJson = none ∧
        (runEvents σ es).app.error = none := by
  induction es with
  | nil => intro σ _ h1 h2 h3; exact ⟨h1, h2, h3⟩
  | cons e es ih =>
    intro σ hall h1 h2 h3
    rw [List.all_cons, Bool.and_eq_true] at hall
    cases e with
    | addImages fs => exact ih _ hall.2 rfl rfl rfl
    | generateClick => exact Bool.noConfusion hall.1
    | gatewayReturn r => exact Bool.noConfusion hall.1
    | reset => exact ih _ hall.2 rfl rfl rfl
    | download => exact ih _ hall.2 h1 h2 h3

/-- Claim C10 counterexample: the paste listener and drop zone stay active
during a pending gateway call, and neither `addFiles` nor `reset` cancels it.
From the initial state: add image 0, click generate (a call is issued on the
batch `[0]`), paste image 1 mid-flight (the display clears, the call stays
pending, no new call is issued), then the pending call settles — the final
state has current batch `[0, 1]` but displays the payouts and export computed
from the gateway response for the earlier batch `[0]`, refuting the claimed
reachable-state invariant. -/
theorem midflight_addFiles_stale_results :
    (runEvents ⟨initialState, 0⟩
      [UIEvent.addImages [0], UIEvent.generateClick]).app.imageFiles = [0] ∧
    (runEvents ⟨initialState, 0⟩
      [UIEvent.addImages [0], UIEvent.generateClick]).pendingCalls = 1 ∧
    (runEvents ⟨initialState, 0⟩
      [UIEvent.addImages [0], UIEvent.generateClick,
        UIEvent.addImages [1]]).app.payouts = none ∧
    (runEvents ⟨initialState, 0⟩
      [UIEvent.addImages [0], UIEvent.generateClick,
        UIEvent.addImages [1]]).app.hrcJson = none ∧
    (runEvents ⟨initialState, 0⟩
      [UIEvent.addImages [0], UIEvent.generateClick,
        UIEvent.addImages [1]]).pendingCalls = 1 ∧
    (runEvents ⟨initialState, 0⟩
      [UIEvent.addImages [0], UIEvent.generateClick, UIEvent.addImages [1],
        UIEvent.gatewayReturn (Except.ok [⟨1, 10⟩])]).app.imageFiles = [0, 1] ∧
    (runEvents ⟨initialState, 0⟩
      [UIEvent.addImages [0], UIEvent.generateClick, UIEvent.addImages [1],
        UIEvent.gatewayReturn (Except.ok [⟨1, 10⟩])]).app.payouts = some [⟨1, 10⟩] ∧
    (runEvents ⟨initialState, 0⟩
      [UIEvent.addImages [0], UIEvent.generateClick, UIEvent.addImages [1],
        UIEvent.gatewayReturn (Except.ok [⟨1, 10⟩])]).app.hrcJson =
      some (serializeExport (buildExportDocument (normalize [⟨1, 10⟩]))) ∧
    (runEvents ⟨initialState, 0⟩
      [UIEvent.addImages [0], UIEvent.generateClick, UIEvent.addImages [1],
        UIEvent.gatewayReturn (Except.ok [⟨1, 10⟩])]).app.error = none :=
  ⟨rfl, rfl, rfl, rfl, rfl, rfl, rfl, rfl, rfl⟩

/-- Claim C10 amended: whenever new image files are added, the previously
displayed payout list, export JSON and error message are all cleared at that
moment (and the files are appended to the batch), and they stay cleared along
any continuation containing neither a generate click nor the settling of a
gateway call; a call still pending from a generate started before the add is
not cancelled, and when it settles it may redisplay results computed from the
earlier batch (the counterexample above). -/
theorem addFiles_clears_until_next_generate (σ : SessionState) (fs : List Nat)
    (es : List UIEvent) (h : (es.all fun e => !(isGenerateEvent e)) = true) :
    (step σ (UIEvent.addImages fs)).app.imageFiles = σ.app.imageFiles ++ fs ∧
    (step σ (UIEvent.addImages fs)).app.payouts = none ∧
    (step σ (UIEvent.addImages fs)).app.hrcJson = none ∧
    (step σ (UIEvent.addImages fs)).app.error = none ∧
    (runEvents (step σ (UIEvent.addImages fs)) es).app.payouts = none ∧
    (runEvents (step σ (UIEvent.addImages fs)) es).app.hrcJson = none ∧
    (runEvents (step σ (UIEvent.addImages fs)) es).app.error = none := by
  obtain ⟨h1, h2, h3⟩ :=
    runEvents_no_generate_keeps_cleared es (step σ (UIEvent.addImages fs)) h rfl rfl rfl
  exact ⟨rfl, rfl, rfl, rfl, h1, h2, h3⟩

/-- Witness for C10 (amended): stale results and a still-pending call; an add
via drag-and-drop, then a download, a reset and another add — nothing stale is
displayed at any point of the continuation, since the pending call does not
settle within it. -/
theorem addFiles_clears_until_next_generate_witness :
    (step (⟨⟨[0], [0], some [⟨1, 5⟩], some "stale", false, some "old"⟩, 1⟩ : SessionState)
      (UIEvent.addImages [1])).app.imageFiles = [0] ++ [1] ∧
    (step (⟨⟨[0], [0], some [⟨1, 5⟩], some "stale", false, some "old"⟩, 1⟩ : SessionState)
      (UIEvent.addImages [1])).app.payouts = none ∧
    (step (⟨⟨[0], [0], some [⟨1, 5⟩], some "stale", false, some "old"⟩, 1⟩ : SessionState)
      (UIEvent.addImages [1])).app.hrcJson = none ∧
    (step (⟨⟨[0], [0], some [⟨1, 5⟩], some "stale", false, some "old"⟩, 1⟩ : SessionState)
      (UIEvent.addImages [1])).app.error = none ∧
    (runEvents (step ⟨⟨[0], [0], some [⟨1, 5⟩], some "stale", false, some "old"⟩, 1⟩
        (UIEvent.addImages [1]))
      [UIEvent.download, UIEvent.reset, UIEvent.addImages [2]]).app.payouts = none ∧
    (runEvents (step ⟨⟨[0], [0], some [⟨1, 5⟩], some "stale", false, some "old"⟩, 1⟩
        (UIEvent.addImages [1]))
      [UIEvent.download, UIEvent.reset, UIEvent.addImages [2]]).app.hrcJson = none ∧
    (runEvents (step ⟨⟨[0], [0], some [⟨1, 5⟩], some "stale", false, some "old"⟩, 1⟩
        (UIEvent.addImages [1]))
      [UIEvent.download, UIEvent.reset, UIEvent.addImages [2]]).app.error = none :=
  addFiles_clears_until_next_generate _ _ _ (by decide)

end PokerPayouts
